import Mathlib

/-!
Verification of the geospatial tile acquisition / batch inference pipeline
(`src/api/main.py` and `src/MapParser/download_buildings_with_labels_multithreaded.py`).

The Python code is shallowly embedded: Python floats become real numbers,
PIL images become a width/height/pixel-function record, network effects are
injected as explicit arguments (per-tile HTTP responses, per-coordinate
download outcomes, the ONNX session as an abstract per-row logits function),
and Python exceptions become `Except` values.  Python `int()` truncation
toward zero is `truncR`.
-/

namespace AsbestosApi

/-! ## Image model (PIL subset used by the pipeline) -/

/-- An RGB color: three channel values. -/
def Color : Type := ℕ × ℕ × ℕ

/-- A decoded raster image: `PIL.Image` as used by the pipeline.  `px x y`
is the pixel at column `x`, row `y`; reads outside the bounds return the
fill-value black, matching what `Image.crop` pads with. -/
structure PILImage where
  width : ℕ
  height : ℕ
  px : ℤ → ℤ → Color

/-- `Image.new('RGB', (w, h), c)`: a `w × h` image uniformly filled with `c`
(PIL's default fill is black `(0,0,0)`). -/
def imageNew (w h : ℕ) (c : Color) : PILImage :=
  ⟨w, h, fun _ _ => c⟩

/-- `base.paste(tile, (ox, oy))`: overwrite the rectangle of `base` starting
at `(ox, oy)` with `tile`'s pixels. -/
def paste (base tile : PILImage) (ox oy : ℤ) : PILImage :=
  ⟨base.width, base.height, fun x y =>
    if ox ≤ x ∧ x < ox + tile.width ∧ oy ≤ y ∧ y < oy + tile.height then
      tile.px (x - ox) (y - oy)
    else
      base.px x y⟩

/-- `img.crop((l, t, r, b))`: returns an `(r - l) × (b - t)` image; pixels
read from outside the source are black (PIL pads out-of-bounds crops). -/
def crop (img : PILImage) (l t r b : ℤ) : PILImage :=
  ⟨(r - l).toNat, (b - t).toNat, fun x y =>
    if 0 ≤ l + x ∧ l + x < img.width ∧ 0 ≤ t + y ∧ t + y < img.height then
      img.px (l + x) (t + y)
    else
      (0, 0, 0)⟩

/-! ## Coordinate mapper (`lat_lng_to_pixel_in_tile`, main.py lines 160-172) -/

/-- Python `int()` applied to a float: truncation toward zero. -/
noncomputable def truncR (x : ℝ) : ℤ :=
  if 0 ≤ x then ⌊x⌋ else ⌈x⌉

/-- `lat_lng_to_pixel_in_tile(lat, lng, zoom)` (main.py lines 160-172):
spherical-Mercator projection to `(x_tile, y_tile, pixel_x, pixel_y)`.
`math.radians` is multiplication by `π / 180`, `math.asinh` is `arsinh`,
each `int(...)` is `truncR`. -/
noncomputable def lat_lng_to_pixel_in_tile (lat lng : ℝ) (zoom : ℕ) :
    ℤ × ℤ × ℤ × ℤ :=
  let lat_rad := lat * Real.pi / 180
  let n : ℝ := 2 ^ zoom
  let x := (lng + 180) / 360 * n
  let y := (1 - Real.arsinh (Real.tan lat_rad) / Real.pi) / 2 * n
  let x_tile := truncR x
  let y_tile := truncR y
  let pixel_x := truncR ((x - x_tile) * 256)
  let pixel_y := truncR ((y - y_tile) * 256)
  (x_tile, y_tile, pixel_x, pixel_y)

/-! ## Tile fetcher (`_download_tile`, main.py lines 226-236, and
`download_tile`, download_buildings_with_labels_multithreaded.py lines 89-104) -/

/-- An HTTP response: status code and an (abstract) body. -/
structure HttpResponse (β : Type) where
  status : ℕ
  body : β

/-- The gray filler tile `Image.new('RGB', (tile_size, tile_size), (128, 128, 128))`. -/
def fillerTile (tile_size : ℕ) : PILImage :=
  imageNew tile_size tile_size (128, 128, 128)

/-- The `try:` body of `_download_tile` (main.py lines 228-233).  `resp` is
the outcome of `session.get(url)` (`.error` = network error / timeout),
`raise_for_status()` raises on any status `≥ 400`, and `decode` is
`Image.open(BytesIO(content))` (`none` = undecodable body). -/
def downloadTileBody {β : Type} (resp : Except String (HttpResponse β))
    (decode : β → Option PILImage) (i j : ℕ) :
    Except String (PILImage × ℕ × ℕ) :=
  match resp with
  | .error e => .error e
  | .ok r =>
    if 400 ≤ r.status then
      .error "ClientResponseError"
    else
      match decode r.body with
      | none => .error "UnidentifiedImageError"
      | some img => .ok (img, i, j)

/-- `_download_tile` (main.py lines 226-236): the whole body is wrapped in
`try ... except Exception`, and any failure is replaced by the gray filler
tile of edge `tile_size`. -/
def downloadTile {β : Type} (resp : Except String (HttpResponse β))
    (decode : β → Option PILImage) (i j : ℕ) (tile_size : ℕ) :
    PILImage × ℕ × ℕ :=
  match downloadTileBody resp decode i j with
  | .ok r => r
  | .error _ => (fillerTile tile_size, i, j)

/-- `download_tile` from the MapParser multithreaded script (lines 89-104):
same catch-all shape, but returns `(i, j, image, success_flag)`. -/
def mpDownloadTile {β : Type} (resp : Except String (HttpResponse β))
    (decode : β → Option PILImage) (i j : ℕ) (tile_size : ℕ) :
    ℕ × ℕ × PILImage × Bool :=
  match downloadTileBody resp decode i j with
  | .ok r => (i, j, r.1, true)
  | .error _ => (i, j, fillerTile tile_size, false)

/-! ## Acquisition (`download_satellite_image`, main.py lines 175-223) -/

/-- `download_satellite_image(lat, lng, size, zoom)` (main.py lines 175-223).
The network is injected: `fetch tx ty` is the `session.get` outcome for the
tile at address `(tx, ty)` and `decode` is `Image.open`.  The nine tiles of
the 3×3 neighborhood are fetched (each falling back to the filler via
`downloadTile`), pasted onto a 768×768 canvas, and the `size × size` window
centered on the sub-tile pixel offset is cropped out. -/
noncomputable def download_satellite_image {β : Type} (lat lng : ℝ)
    (fetch : ℤ → ℤ → Except String (HttpResponse β))
    (decode : β → Option PILImage) (size : ℕ := 128) (zoom : ℕ := 20) :
    PILImage :=
  let q := lat_lng_to_pixel_in_tile lat lng zoom
  let x_tile := q.1
  let y_tile := q.2.1
  let pixel_x := q.2.2.1
  let pixel_y := q.2.2.2
  let tile_size : ℕ := 256
  let tiles_needed : ℕ := 3
  let combined0 := imageNew (tile_size * tiles_needed) (tile_size * tiles_needed) (0, 0, 0)
  let pairs := (List.range tiles_needed).flatMap
    (fun i => (List.range tiles_needed).map (fun j => (i, j)))
  let tile_results := pairs.map (fun p =>
    let tx := x_tile - (tiles_needed / 2 : ℕ) + p.1
    let ty := y_tile - (tiles_needed / 2 : ℕ) + p.2
    downloadTile (fetch tx ty) decode p.1 p.2 tile_size)
  let combined := tile_results.foldl
    (fun acc r => paste acc r.1 (r.2.1 * tile_size) (r.2.2 * tile_size)) combined0
  let center_x : ℤ := (tiles_needed / 2 : ℕ) * tile_size + pixel_x
  let center_y : ℤ := (tiles_needed / 2 : ℕ) * tile_size + pixel_y
  let half_size : ℤ := (size / 2 : ℕ)
  let left := center_x - half_size
  let top := center_y - half_size
  crop combined left top (left + size) (top + size)

/-! ## Per-item post-processing

The classifier output for one item is one row of logits (`List ℝ`).  A row of
length `> 1` corresponds to `logits.ndim == 2 and logits.shape[1] > 1`
(multi-class); a single value corresponds to the single-logit case.
`np.max` over a row is `listMax`, `np.exp` is `Real.exp`. -/

/-- `np.max` over one row (the row is nonempty in every classifier output;
on an empty list this folds from a default of `0`). -/
def listMax (l : List ℝ) : ℝ :=
  l.foldr max (l.headD 0)

/-- Post-processing of one logits row in the single-item `/predict` endpoint
(main.py lines 360-365): numerically stable softmax (subtract the row max
before exponentiating) taking `probs[0, 1]` for a multi-class row, else a
numerically stable sigmoid of the single logit. -/
noncomputable def postprocessPredict (row : List ℝ) : ℝ :=
  if 1 < row.length then
    let m := listMax row
    let exps := row.map (fun v => Real.exp (v - m))
    let s := exps.sum
    let probs := exps.map (fun e => e / s)
    if 1 < probs.length then probs.getD 1 0 else probs.getLastD 0
  else
    1 / (1 + Real.exp (-(row.headD 0)))

/-- Post-processing of one logits row inside `process_batch` of
`_batch_inference` (main.py lines 421-428): the same stable softmax /
sigmoid applied to the row `logits[j:j+1]`. -/
noncomputable def postprocessBatchItem (row : List ℝ) : ℝ :=
  if 1 < row.length then
    let m := listMax row
    let exps := row.map (fun v => Real.exp (v - m))
    let s := exps.sum
    let probs := exps.map (fun e => e / s)
    if 1 < probs.length then probs.getD 1 0 else probs.getLastD 0
  else
    1 / (1 + Real.exp (-(row.headD 0)))

/-! ## Batch inference engine (`_batch_inference`, main.py lines 388-441) -/

/-- One iteration of the chunking loop
`for i in range(0, len(images), k): images[i:i+k]` (main.py lines 395-398):
emit the next slice of `k` images and continue on the rest.  The loop runs
at most `len(images)` times, which bounds the structural counter. -/
def chunksOfGo {α : Type} (k : ℕ) : ℕ → List α → List (List α)
  | _, [] => []
  | 0, _ :: _ => []
  | fuel + 1, x :: xs => ((x :: xs).take k) :: chunksOfGo k fuel ((x :: xs).drop k)

/-- The chunking of `_batch_inference` (main.py lines 395-398).  In the
source `k` is the positive constant `MAX_INFERENCE_BATCH_SIZE = 32`. -/
def chunksOf {α : Type} (k : ℕ) (l : List α) : List (List α) :=
  chunksOfGo k l.length l

/-- `process_batch` (main.py lines 405-432): one classifier call on the
stacked chunk followed by per-row post-processing.  The ONNX session is
modelled as the per-row logits function `run1`: `model.run` on a stacked
batch returns, at row `j`, the logits `run1 batch[j]` (the network is
applied row-wise to the batch dimension). -/
noncomputable def processBatch {Img : Type} (run1 : Img → List ℝ)
    (batch : List Img) : List ℝ :=
  batch.map (fun img => postprocessBatchItem (run1 img))

/-- `_batch_inference` with the chunk size as a parameter: split into chunks
of at most `k`, process every chunk, flatten the per-chunk predictions in
chunk order (`asyncio.gather` keeps task order). -/
noncomputable def batchInferenceWith {Img : Type} (k : ℕ) (run1 : Img → List ℝ)
    (images : List Img) : List ℝ :=
  ((chunksOf k images).map (processBatch run1)).flatten

/-- `_batch_inference(model, images)` (main.py lines 388-441):
`MAX_INFERENCE_BATCH_SIZE = 32`. -/
noncomputable def batch_inference {Img : Type} (run1 : Img → List ℝ)
    (images : List Img) : List ℝ :=
  batchInferenceWith 32 run1 images

/-! ## Classifier loading (`_load_onnx_session` / `get_model`, main.py
lines 239-270) -/

/-- The two load-failure conditions of `_load_onnx_session`. -/
inductive LoadErr : Type
  | fileNotFound (msg : String)
  | runtimeError (msg : String)
deriving DecidableEq

/-- `_load_onnx_session(path)` (main.py lines 240-260): raises
`FileNotFoundError` when the `.onnx` artifact does not exist, otherwise
wraps any session-construction failure into a `RuntimeError`.  `exists_` is
`os.path.exists(session_path)` and `init` the outcome of
`ort.InferenceSession(...)`. -/
def load_onnx_session {M : Type} (exists_ : Bool) (session_path : String)
    (init : Except String M) : Except LoadErr M :=
  if exists_ then
    match init with
    | .ok m => .ok m
    | .error e => .error (.runtimeError ("Błąd ładowania sesji ONNX: " ++ e))
  else
    .error (.fileNotFound ("Sesja ONNX nie znaleziona: " ++ session_path))

/-- `get_model()` (main.py lines 263-270): return the cached global session
if present, else load it. -/
def get_model {M : Type} (cache : Option M) (loader : Except LoadErr M) :
    Except LoadErr M :=
  match cache with
  | some m => .ok m
  | none => loader

/-! ## Request / response data model (main.py lines 69-97) -/

/-- `CoordinateItem` (main.py lines 74-77): plain floats, no validators —
pydantic performs no range check on the coordinates. -/
structure CoordinateItem where
  centroidLat : ℝ
  centroidLng : ℝ
  id : Option String := none

/-- `PredictionResult` (main.py lines 84-90). -/
structure PredictionResult where
  centroidLat : ℝ
  centroidLng : ℝ
  id : Option String
  isPotentiallyAsbestos : ℝ
  success : Bool
  error : Option String

/-- `BatchPredictResponse` (main.py lines 93-97). -/
structure BatchPredictResponse where
  results : List PredictionResult
  total : ℕ
  successful : ℕ
  failed : ℕ

/-- How a request handler can terminate abnormally: an `HTTPException`
raised on purpose, or an uncaught Python exception escaping the handler
(`ZeroDivisionError` from `inference_time / len(predictions)`,
`ValueError`/`IndexError` from `list.index` / list subscripts). -/
inductive ApiErr : Type
  | http (status : ℕ) (detail : String)
  | zeroDivisionError
  | lookupError
deriving DecidableEq

/-- `Except.isOk` for our handler results. -/
def isOkE {ε α : Type} : Except ε α → Bool
  | .ok _ => true
  | .error _ => false

/-! ## `/predict` endpoint (main.py lines 322-377)

The effectful steps are injected: `cache`/`loader` for `get_model`,
`download` for `download_satellite_image(...)`, `prepare` for
`_prepare_image_for_model`, `run` for `model.run`; each `Except.error`
is the exception caught by the corresponding `try` block. -/

/-- `predict(req)` (main.py lines 322-377): model load failures map to
HTTP 503 (`FileNotFoundError`) or HTTP 500 (anything else); download,
preprocessing and inference failures map to HTTP 500; on success the
single logits row is post-processed into the returned probability. -/
noncomputable def predict {M Img Prep : Type} (cache : Option M)
    (loader : Except LoadErr M) (download : Except String Img)
    (prepare : Img → Except String Prep) (run : M → Prep → Except String (List ℝ)) :
    Except ApiErr ℝ :=
  match get_model cache loader with
  | .error (.fileNotFound msg) => .error (.http 503 msg)
  | .error (.runtimeError msg) => .error (.http 500 ("Model load error: " ++ msg))
  | .ok m =>
    match download with
    | .error e => .error (.http 500 ("Failed to download image: " ++ e))
    | .ok img =>
      match prepare img with
      | .error e => .error (.http 500 ("Failed to prepare image: " ++ e))
      | .ok prep =>
        match run m prep with
        | .error e => .error (.http 500 ("Model inference error (ONNX): " ++ e))
        | .ok row => .ok (postprocessPredict row)

/-! ## `/batch_predict` endpoint (main.py lines 444-549) -/

/-- PHASE 3 of `batch_predict` (main.py lines 505-527): rebuild one
`PredictionResult` per input coordinate, in input order.  A coordinate with
a recorded download error becomes a `success=False` result with score `0.0`;
otherwise its score is found by `image_indices.index(idx)` followed by a
subscript into `predictions` — both raise (`none`) when out of bounds, as
the Python `list.index` / `list[i]` do. -/
def buildResults (coords : List CoordinateItem) (error_results : List (ℕ × String))
    (image_indices : List ℕ) (predictions : List ℝ) :
    Option (List PredictionResult) :=
  coords.enum.mapM (fun p =>
    match error_results.lookup p.1 with
    | some msg =>
      some ⟨p.2.centroidLat, p.2.centroidLng, p.2.id, 0, false, some msg⟩
    | none =>
      match image_indices.indexOf? p.1 with
      | none => none
      | some result_idx =>
        match predictions.get? result_idx with
        | none => none
        | some pr =>
          some ⟨p.2.centroidLat, p.2.centroidLng, p.2.id, pr, true, none⟩)

/-- The successful downloads of PHASE 1, with their original indices, in
arrival order (main.py lines 484-491). -/
def downloadOks {Img : Type} (download_results : List (Except String Img)) :
    List (ℕ × Img) :=
  download_results.enum.filterMap (fun p =>
    match p.2 with
    | .ok img => some (p.1, img)
    | .error _ => none)

/-- The failed downloads of PHASE 1 as the `error_results` map
(main.py lines 484-488). -/
def downloadErrs {Img : Type} (download_results : List (Except String Img)) :
    List (ℕ × String) :=
  download_results.enum.filterMap (fun p =>
    match p.2 with
    | .error e => some (p.1, e)
    | .ok _ => none)

/-- `batch_predict(req)` (main.py lines 444-549).  Steps in source order:
reject an empty coordinate list with HTTP 400 (before `get_model`); load the
model (503 / 500 onto the two load failures); download all images in
parallel, collecting per-item outcomes (`download` injects the outcome of
`_download_and_prepare_image` per coordinate); run `_batch_inference` on the
successfully prepared images; print the average inference time — which
divides by `len(predictions)` and raises `ZeroDivisionError` when no
download succeeded (main.py line 502); rebuild the per-coordinate results
and count successes. -/
noncomputable def batch_predict {M Img : Type} (cache : Option M)
    (loader : Except LoadErr M) (download : CoordinateItem → Except String Img)
    (run1 : M → Img → List ℝ) (coords : List CoordinateItem) :
    Except ApiErr BatchPredictResponse :=
  if coords.isEmpty then
    .error (.http 400 "Coordinates list cannot be empty")
  else
    match get_model cache loader with
    | .error (.fileNotFound msg) => .error (.http 503 msg)
    | .error (.runtimeError msg) => .error (.http 500 ("Model load error: " ++ msg))
    | .ok m =>
      let download_results := coords.map download
      let oks := downloadOks download_results
      let error_results := downloadErrs download_results
      let prepared_images := oks.map (fun p => p.2)
      let image_indices := oks.map (fun p => p.1)
      let predictions := batch_inference (run1 m) prepared_images
      if predictions.length = 0 then
        .error .zeroDivisionError
      else
        match buildResults coords error_results image_indices predictions with
        | none => .error .lookupError
        | some final_results =>
          let successful := (final_results.filter (fun r => r.success)).length
          .ok ⟨final_results, final_results.length, successful,
               final_results.length - successful⟩

/-! ## Single-coordinate helper (`_predict_single_coordinate_async`,
main.py lines 571-613) -/

/-- The `try:` body of `_predict_single_coordinate_async` (main.py lines
573-594): download, prepare, `get_model`, inference and post-processing for
one coordinate; the first failing step is the exception the catch-all
captures. -/
noncomputable def single_coordinate_attempt {M Img Prep : Type}
    (download : Except String Img) (prepare : Img → Except String Prep)
    (getModel : Except String M) (run : M → Prep → Except String (List ℝ)) :
    Except String ℝ :=
  match download with
  | .error e => .error e
  | .ok img =>
    match prepare img with
    | .error e => .error e
    | .ok prep =>
      match getModel with
      | .error e => .error e
      | .ok m =>
        match run m prep with
        | .error e => .error e
        | .ok row => .ok (postprocessPredict row)

/-- The result construction of `_predict_single_coordinate_async`: the
caught exception becomes a failed result, the computed probability a
successful one. -/
noncomputable def predict_single_coordinate_async {M Img Prep : Type}
    (lat lng : ℝ) (coord_id : Option String)
    (download : Except String Img) (prepare : Img → Except String Prep)
    (getModel : Except String M) (run : M → Prep → Except String (List ℝ)) :
    PredictionResult :=
  match single_coordinate_attempt download prepare getModel run with
  | .ok prob => ⟨lat, lng, coord_id, prob, true, none⟩
  | .error e => ⟨lat, lng, coord_id, 0, false, some e⟩

/-! ## Concurrency model of the admission limiter (main.py lines 125-147,
380-385, 175-223)

`SEMAPHORE = asyncio.Semaphore(C)` lets at most `C` concurrent
`_download_and_prepare_image` bodies (`async with SEMAPHORE`).  Each
in-flight body runs `download_satellite_image`, which starts the nine
`_download_tile` coroutines of the 3×3 neighborhood with `asyncio.gather`,
so one in-flight acquisition may have up to `9` tile fetches open at the
same instant.  A state records the acquisitions still waiting on the
semaphore and, per in-flight acquisition, how many of its nine fetches have
been started and how many of those are still open. -/

/-- One in-flight acquisition: `started` tile fetches begun (of the 9),
`opened` of them still in flight. -/
structure Holder where
  started : ℕ
  opened : ℕ
deriving DecidableEq

/-- Scheduler state: acquisitions waiting on `SEMAPHORE`, and the
(in-flight) acquisitions. -/
structure SemState where
  waiting : ℕ
  holders : List Holder
deriving DecidableEq

/-- Number of tile-fetch operations open at this instant. -/
def openFetches (s : SemState) : ℕ :=
  (s.holders.map (fun h => h.opened)).sum

/-- Interleaving steps of the acquisition pipeline with the admission
limiter set to `C`. -/
inductive SemStep (C : ℕ) : SemState → SemState → Prop
  | acquire (w : ℕ) (hs : List Holder) :
      hs.length < C →
      SemStep C ⟨w + 1, hs⟩ ⟨w, ⟨0, 0⟩ :: hs⟩
  | startFetch (w : ℕ) (l r : List Holder) (st op : ℕ) :
      st < 9 →
      SemStep C ⟨w, l ++ ⟨st, op⟩ :: r⟩ ⟨w, l ++ ⟨st + 1, op + 1⟩ :: r⟩
  | finishFetch (w : ℕ) (l r : List Holder) (st op : ℕ) :
      SemStep C ⟨w, l ++ ⟨st, op + 1⟩ :: r⟩ ⟨w, l ++ ⟨st, op⟩ :: r⟩
  | release (w : ℕ) (l r : List Holder) :
      SemStep C ⟨w, l ++ ⟨9, 0⟩ :: r⟩ ⟨w, l ++ r⟩

/-- Reachability under the scheduler. -/
def SemReachable (C : ℕ) (s t : SemState) : Prop :=
  Relation.ReflTransGen (SemStep C) s t

/-- The initial state of a batch of `N` concurrently submitted coordinate
acquisitions. -/
def semInit (N : ℕ) : SemState :=
  ⟨N, []⟩

/-- State invariant maintained by the scheduler: at most `C` in-flight
acquisitions, and each has started at most its 9 fetches, of which at most
the started ones are open. -/
def semInv (C : ℕ) (s : SemState) : Prop :=
  s.holders.length ≤ C ∧ ∀ h ∈ s.holders, h.opened ≤ h.started ∧ h.started ≤ 9

/-- The per-result invariant of the pipeline: a failed item carries score
`0.0` and a message, a successful one carries no error. -/
def resultInv (r : PredictionResult) : Prop :=
  (r.success = false → r.isPotentiallyAsbestos = 0 ∧ r.error ≠ none) ∧
  (r.success = true → r.error = none)

/-! ## Supporting lemmas -/

/-- `mapM` over `Option` only returns elements produced by the item
function. -/
theorem mapM_option_forall {α β : Type} {f : α → Option β} {P : β → Prop}
    (hf : ∀ a b, f a = some b → P b) :
    ∀ {l : List α} {rs : List β}, l.mapM f = some rs → ∀ b ∈ rs, P b := by
  intro l
  induction l with
  | nil =>
    intro rs h b hb
    simp only [List.mapM_nil, Option.pure_def, Option.some.injEq] at h
    subst h
    simp at hb
  | cons a l ih =>
    intro rs h b hb
    rw [List.mapM_cons] at h
    cases hfa : f a with
    | none => rw [hfa] at h; simp at h
    | some v =>
      rw [hfa] at h
      cases hml : l.mapM f with
      | none => rw [hml] at h; simp at h
      | some vs =>
        rw [hml] at h
        simp at h
        subst h
        rcases List.mem_cons.mp hb with rfl | hb2
        · exact hf a b hfa
        · exact ih hml b hb2

/-- `mapM` over `Option` preserves length when it succeeds. -/
theorem mapM_option_length {α β : Type} {f : α → Option β} :
    ∀ {l : List α} {rs : List β}, l.mapM f = some rs → rs.length = l.length := by
  intro l
  induction l with
  | nil =>
    intro rs h
    simp only [List.mapM_nil, Option.pure_def, Option.some.injEq] at h
    subst h
    rfl
  | cons a l ih =>
    intro rs h
    rw [List.mapM_cons] at h
    cases hfa : f a with
    | none => rw [hfa] at h; simp at h
    | some v =>
      rw [hfa] at h
      cases hml : l.mapM f with
      | none => rw [hml] at h; simp at h
      | some vs =>
        rw [hml] at h
        simp at h
        subst h
        simp [ih hml]

/-- Flattening the chunks reassembles the original list (loop counter
version). -/
theorem chunksOfGo_flatten {α : Type} (k : ℕ) (hk : 0 < k) :
    ∀ (fuel : ℕ) (l : List α), l.length ≤ fuel →
      (chunksOfGo k fuel l).flatten = l := by
  intro fuel
  induction fuel with
  | zero =>
    intro l hl
    cases l with
    | nil => rfl
    | cons x xs => simp at hl
  | succ fuel ih =>
    intro l hl
    cases l with
    | nil => rfl
    | cons x xs =>
      simp only [chunksOfGo, List.flatten_cons]
      rw [ih ((x :: xs).drop k)
        (by simp only [List.length_drop, List.length_cons] at hl ⊢; omega)]
      exact List.take_append_drop k (x :: xs)

/-- Flattening the chunks reassembles the original list. -/
theorem chunksOf_flatten {α : Type} (k : ℕ) (hk : 0 < k) (l : List α) :
    (chunksOf k l).flatten = l :=
  chunksOfGo_flatten k hk l.length l le_rfl

/-- Every chunk is a slice of at most `k` elements. -/
theorem chunksOfGo_length_le {α : Type} (k : ℕ) :
    ∀ (fuel : ℕ) (l : List α), ∀ c ∈ chunksOfGo k fuel l, c.length ≤ k := by
  intro fuel
  induction fuel with
  | zero =>
    intro l c hc
    cases l <;> simp [chunksOfGo] at hc
  | succ fuel ih =>
    intro l c hc
    cases l with
    | nil => simp [chunksOfGo] at hc
    | cons x xs =>
      simp only [chunksOfGo, List.mem_cons] at hc
      rcases hc with rfl | hc2
      · simp [List.length_take]
      · exact ih _ c hc2

/-- Every chunk of `chunksOf` has at most `k` elements. -/
theorem chunksOf_length_le {α : Type} (k : ℕ) (l : List α) :
    ∀ c ∈ chunksOf k l, c.length ≤ k :=
  chunksOfGo_length_le k l.length l

/-- Chunked-then-flattened mapping equals direct mapping: the chunked
inference pipeline computes the per-image map. -/
theorem batchInferenceWith_eq_map {Img : Type} (k : ℕ) (hk : 0 < k)
    (run1 : Img → List ℝ) (images : List Img) :
    batchInferenceWith k run1 images =
      images.map (fun img => postprocessBatchItem (run1 img)) := by
  unfold batchInferenceWith processBatch
  rw [← List.map_flatten, chunksOf_flatten k hk]

/-! ## Claim theorems -/

/-- C3: for every tile address and any fetch failure (network error,
non-success HTTP status, undecodable body), the tile fetcher returns the
uniformly gray filler tile of the requested edge size instead of raising —
in both the async API fetcher and the MapParser thread-pool fetcher.  No
exception propagates: `downloadTile` / `mpDownloadTile` are total and on
any failed body return the filler. -/
theorem C3_tile_fetch_failure_contained {β : Type}
    (resp : Except String (HttpResponse β)) (decode : β → Option PILImage)
    (i j tile_size : ℕ)
    (hfail : isOkE (downloadTileBody resp decode i j) = false) :
    downloadTile resp decode i j tile_size = (fillerTile tile_size, i, j) ∧
    mpDownloadTile resp decode i j tile_size = (i, j, fillerTile tile_size, false) ∧
    (fillerTile tile_size).width = tile_size ∧
    (fillerTile tile_size).height = tile_size ∧
    ∀ x y : ℤ, (fillerTile tile_size).px x y = (128, 128, 128) := by
  cases hbody : downloadTileBody resp decode i j with
  | ok r => rw [hbody] at hfail; simp [isOkE] at hfail
  | error e =>
    exact ⟨by simp [downloadTile, hbody], by simp [mpDownloadTile, hbody],
      rfl, rfl, fun _ _ => rfl⟩

/-- Witness for C3: a concrete timed-out fetch is replaced by the 256-pixel
gray filler. -/
theorem C3_witness :
    downloadTile (Except.error "TimeoutError" : Except String (HttpResponse Unit))
      (fun _ => none) 0 0 256 = (fillerTile 256, 0, 0) :=
  (C3_tile_fetch_failure_contained (Except.error "TimeoutError")
    (fun _ => none) 0 0 256 rfl).1

/-- C4: for every coordinate and the configured output size 128 (and zoom
20, as in `IMG_SIZE`/`ZOOM`), `download_satellite_image` returns an image of
exactly 128×128 pixels, whatever the nine tile fetches return — in
particular also when every fetch failed and was replaced by a filler tile;
the embedded acquisition is a total function, so no exception is raised in
the all-filler case. -/
theorem C4_acquisition_output_size {β : Type} (lat lng : ℝ)
    (fetch : ℤ → ℤ → Except String (HttpResponse β))
    (decode : β → Option PILImage) :
    (download_satellite_image lat lng fetch decode 128 20).width = 128 ∧
    (download_satellite_image lat lng fetch decode 128 20).height = 128 := by
  constructor <;> simp [download_satellite_image, crop]

/-- C5: `_batch_inference` partitions the arrival-ordered image list into
consecutive chunks of at most 32, and returns a score list of the same
length and order as its input, the i-th score being the post-processed
classifier output for the i-th image. -/
theorem C5_batch_inference_chunking (Img : Type) (run1 : Img → List ℝ)
    (images : List Img) :
    (batch_inference run1 images).length = images.length ∧
    batch_inference run1 images =
      images.map (fun img => postprocessBatchItem (run1 img)) ∧
    (chunksOf 32 images).flatten = images ∧
    ∀ c ∈ chunksOf 32 images, c.length ≤ 32 := by
  have hmap := batchInferenceWith_eq_map 32 (by norm_num) run1 images
  refine ⟨?_, hmap, chunksOf_flatten 32 (by norm_num) images,
    chunksOf_length_le 32 images⟩
  rw [batch_inference, hmap]
  simp

/-- Witness for C5: the single chunk of a one-image batch is within the
32-image bound. -/
theorem C5_witness : ([true] : List Bool) ∈ chunksOf 32 [true] ∧
    ([true] : List Bool).length ≤ 32 :=
  ⟨by simp [chunksOf, chunksOfGo],
   (C5_batch_inference_chunking Bool (fun _ => [0]) [true]).2.2.2 [true]
     (by simp [chunksOf, chunksOfGo])⟩

/-- C6: the per-item post-processing (stable softmax with row-max
subtraction taking the positive-class probability, stable sigmoid for a
single logit) is the same function in the single-item `/predict` path and
in the batched path, and the batched result is the per-image map for every
chunk size — chunk boundaries never alter a score. -/
theorem C6_postprocessing_paths_agree :
    (∀ row : List ℝ, postprocessPredict row = postprocessBatchItem row) ∧
    ∀ (Img : Type) (k : ℕ) (run1 : Img → List ℝ) (images : List Img),
      0 < k →
      batchInferenceWith k run1 images =
        images.map (fun img => postprocessPredict (run1 img)) := by
  refine ⟨fun row => rfl, fun Img k run1 images hk => ?_⟩
  rw [batchInferenceWith_eq_map k hk]
  rfl

/-- Witness for C6: chunk size 2 on a three-image batch yields exactly the
per-image single-path scores. -/
theorem C6_witness : 0 < 2 ∧
    batchInferenceWith 2 (fun _ : Bool => [(0 : ℝ)]) [true, false, true] =
      [true, false, true].map (fun _ => postprocessPredict [(0 : ℝ)]) :=
  ⟨by norm_num,
   C6_postprocessing_paths_agree.2 Bool 2 (fun _ => [(0 : ℝ)])
     [true, false, true] (by norm_num)⟩

/-- C1 (code bug): a batch whose every coordinate fails acquisition does
not produce an N-entry result list — the handler computes the per-image
average inference time as `inference_time / len(predictions)` (main.py
line 502) and raises `ZeroDivisionError`, escaping as an HTTP 500 instead
of a `BatchPredictResponse` with `total == N`. -/
theorem C1_all_failed_batch_zero_division :
    batch_predict (some PUnit.unit) (Except.ok PUnit.unit)
      (fun _ => (Except.error "TimeoutError" : Except String PUnit))
      (fun _ _ => [(0 : ℝ)]) [⟨52, 21, none⟩] =
      Except.error ApiErr.zeroDivisionError := rfl

/-- C7 counterexample: an out-of-range coordinate (latitude 1000) is not
rejected with an invalid-request error — no range validation exists, so the
request proceeds through model load, download and inference and returns a
normal response. -/
theorem C7_counterexample_out_of_range_accepted :
    isOkE (batch_predict (some PUnit.unit) (Except.ok PUnit.unit)
      (fun _ => (Except.ok PUnit.unit : Except String PUnit))
      (fun _ _ => [(0 : ℝ)]) [⟨1000, 0, none⟩]) = true := rfl

/-- C7 (amended): an empty coordinate list is rejected with HTTP 400 before
any work starts — the rejection is independent of the model cache and
loader, of the downloader and of the classifier, so no model load, tile
fetch or inference is performed. -/
theorem C7_empty_batch_rejected_before_work {M Img : Type} (cache : Option M)
    (loader : Except LoadErr M) (download : CoordinateItem → Except String Img)
    (run1 : M → Img → List ℝ) :
    batch_predict cache loader download run1 [] =
      Except.error (ApiErr.http 400 "Coordinates list cannot be empty") := rfl

/-- C8: with no cached session, a missing classifier artifact makes every
prediction request — single and (non-empty) batch — fail with HTTP 503
carrying the artifact-not-found message, while any other load failure
surfaces as HTTP 500 with the generic load-error message; the two
conditions are distinct for any detail strings. -/
theorem C8_load_failures_distinguished {M Img Prep : Type} (path : String)
    (init : Except String M) (download : Except String Img)
    (prepare : Img → Except String Prep)
    (run : M → Prep → Except String (List ℝ))
    (dl : CoordinateItem → Except String Img) (run1 : M → Img → List ℝ)
    (coords : List CoordinateItem) (hne : coords ≠ []) :
    (predict none (load_onnx_session false path init) download prepare run =
        Except.error (ApiErr.http 503 ("Sesja ONNX nie znaleziona: " ++ path)) ∧
      batch_predict none (load_onnx_session false path init) dl run1 coords =
        Except.error (ApiErr.http 503 ("Sesja ONNX nie znaleziona: " ++ path))) ∧
    (∀ e, init = Except.error e →
      predict none (load_onnx_session true path init) download prepare run =
        Except.error (ApiErr.http 500
          ("Model load error: " ++ ("Błąd ładowania sesji ONNX: " ++ e))) ∧
      batch_predict none (load_onnx_session true path init) dl run1 coords =
        Except.error (ApiErr.http 500
          ("Model load error: " ++ ("Błąd ładowania sesji ONNX: " ++ e)))) ∧
    (∀ d₁ d₂, ApiErr.http 503 d₁ ≠ ApiErr.http 500 d₂) := by
  obtain ⟨c, cs, rfl⟩ : ∃ c cs, coords = c :: cs := by
    cases coords with
    | nil => exact absurd rfl hne
    | cons c cs => exact ⟨c, cs, rfl⟩
  refine ⟨⟨rfl, rfl⟩, ?_, ?_⟩
  · rintro e rfl
    exact ⟨rfl, rfl⟩
  · intro d₁ d₂ h
    simp [ApiErr.http.injEq] at h

/-- Witness for C8: with the artifact missing, a concrete single request
gets the 503 not-found condition. -/
theorem C8_witness :
    @predict PUnit PUnit PUnit none
      (load_onnx_session false "asbestos_net.onnx" (Except.ok PUnit.unit))
      (Except.ok PUnit.unit) (fun _ => Except.ok PUnit.unit)
      (fun _ _ => Except.ok [(0 : ℝ)]) =
      Except.error (ApiErr.http 503
        ("Sesja ONNX nie znaleziona: " ++ "asbestos_net.onnx")) :=
  ((C8_load_failures_distinguished "asbestos_net.onnx" (Except.ok PUnit.unit)
    (Except.ok PUnit.unit) (fun _ => Except.ok PUnit.unit)
    (fun _ _ => Except.ok [(0 : ℝ)]) (fun _ => Except.ok PUnit.unit)
    (fun _ _ => [(0 : ℝ)]) [⟨0, 0, none⟩] (by simp)).1).1

/-- C10: every `PredictionResult` emitted by the pipeline — each item of
each successful batch response and the single-coordinate helper — satisfies
the invariant: `success=false` implies score `0.0` and a non-null error
message, and `success=true` implies a null error. -/
theorem C10_result_invariant :
    (∀ (M Img : Type) (cache : Option M) (loader : Except LoadErr M)
        (download : CoordinateItem → Except String Img)
        (run1 : M → Img → List ℝ) (coords : List CoordinateItem)
        (resp : BatchPredictResponse),
      batch_predict cache loader download run1 coords = Except.ok resp →
      ∀ r ∈ resp.results, resultInv r) ∧
    (∀ (M Img Prep : Type) (lat lng : ℝ) (cid : Option String)
        (download : Except String Img) (prepare : Img → Except String Prep)
        (gm : Except String M) (run : M → Prep → Except String (List ℝ)),
      resultInv (predict_single_coordinate_async lat lng cid download prepare gm run)) := by
  constructor
  · intro M Img cache loader download run1 coords resp h r hr
    unfold batch_predict at h
    split at h
    · exact absurd h (by simp)
    · split at h
      · exact absurd h (by simp)
      · exact absurd h (by simp)
      · dsimp only at h
        split at h
        · exact absurd h (by simp)
        · split at h
          · exact absurd h (by simp)
          · rename_i hbuild
            injection h with h
            subst h
            refine mapM_option_forall ?_ hbuild r hr
            intro p b hpb
            simp only at hpb
            split at hpb
            · injection hpb with hpb
              subst hpb
              exact ⟨fun _ => ⟨rfl, by simp [resultInv]⟩, fun hs => by simp at hs⟩
            · split at hpb
              · simp at hpb
              · split at hpb
                · simp at hpb
                · injection hpb with hpb
                  subst hpb
                  exact ⟨fun hs => by simp at hs, fun _ => rfl⟩
  · intro M Img Prep lat lng cid download prepare gm run
    unfold predict_single_coordinate_async
    cases single_coordinate_attempt download prepare gm run with
    | error e => exact ⟨fun _ => ⟨rfl, by simp⟩, fun hs => by simp at hs⟩
    | ok prob => exact ⟨fun hs => by simp at hs, fun _ => rfl⟩

/-- Witness for C10: the invariant holds on the concrete result of a
successful one-coordinate batch. -/
theorem C10_witness :
    resultInv ⟨52, 21, none, postprocessBatchItem [(0 : ℝ)], true, none⟩ :=
  C10_result_invariant.1 PUnit PUnit (some PUnit.unit) (Except.ok PUnit.unit)
    (fun _ => Except.ok PUnit.unit) (fun _ _ => [(0 : ℝ)]) [⟨52, 21, none⟩]
    ⟨[⟨52, 21, none, postprocessBatchItem [(0 : ℝ)], true, none⟩], 1, 1, 0⟩ rfl
    _ (by simp)

/-! ## Scheduler invariants for the admission limiter -/

/-- Every scheduler step preserves the semaphore invariant. -/
theorem semStep_inv {C : ℕ} {s t : SemState} (hst : SemStep C s t)
    (hs : semInv C s) : semInv C t := by
  obtain ⟨hlen, hmem⟩ := hs
  cases hst with
  | acquire w hs' hlt =>
    refine ⟨by simpa using hlt, ?_⟩
    intro h hh
    rcases List.mem_cons.mp hh with rfl | hh2
    · exact ⟨le_rfl, by norm_num⟩
    · exact hmem h hh2
  | startFetch w l r st op hlt =>
    refine ⟨by simpa using hlen, ?_⟩
    intro h hh
    rcases List.mem_append.mp hh with hl | hcr
    · exact hmem h (List.mem_append.mpr (Or.inl hl))
    · rcases List.mem_cons.mp hcr with rfl | hr2
      · have hold := hmem ⟨st, op⟩
          (List.mem_append.mpr (Or.inr (List.mem_cons_self _ _)))
        have h1 : op ≤ st := hold.1
        exact ⟨Nat.succ_le_succ h1, hlt⟩
      · exact hmem h (List.mem_append.mpr (Or.inr (List.mem_cons_of_mem _ hr2)))
  | finishFetch w l r st op =>
    refine ⟨by simpa using hlen, ?_⟩
    intro h hh
    rcases List.mem_append.mp hh with hl | hcr
    · exact hmem h (List.mem_append.mpr (Or.inl hl))
    · rcases List.mem_cons.mp hcr with rfl | hr2
      · have hold := hmem ⟨st, op + 1⟩
          (List.mem_append.mpr (Or.inr (List.mem_cons_self _ _)))
        have h1 : op + 1 ≤ st := hold.1
        exact ⟨(show op ≤ st by omega), hold.2⟩
      · exact hmem h (List.mem_append.mpr (Or.inr (List.mem_cons_of_mem _ hr2)))
  | release w l r =>
    refine ⟨?_, ?_⟩
    · simp only [List.length_append] at hlen ⊢
      simp at hlen
      omega
    · intro h hh
      rcases List.mem_append.mp hh with hl | hr2
      · exact hmem h (List.mem_append.mpr (Or.inl hl))
      · exact hmem h (List.mem_append.mpr (Or.inr (List.mem_cons_of_mem _ hr2)))

/-- The semaphore invariant holds in every reachable state. -/
theorem semReachable_inv {C N : ℕ} {s : SemState}
    (h : SemReachable C (semInit N) s) : semInv C s := by
  induction h with
  | refl => exact ⟨by simp [semInit], by simp [semInit]⟩
  | tail _ hbc ih => exact semStep_inv hbc ih

/-- Sum of open fetch counts is bounded by 9 per holder. -/
theorem holders_open_sum_le (hs : List Holder)
    (hb : ∀ h ∈ hs, h.opened ≤ 9) :
    (hs.map (fun h => h.opened)).sum ≤ 9 * hs.length := by
  induction hs with
  | nil => simp
  | cons h t ih =>
    have hbt : ∀ x ∈ t, x.opened ≤ 9 := fun x hx => hb x (List.mem_cons_of_mem _ hx)
    have hh := hb h (List.mem_cons_self _ _)
    have := ih hbt
    simp only [List.map_cons, List.sum_cons, List.length_cons]
    omega

/-- C9 (amended): in every state reachable from a batch of `N` submitted
acquisitions with the admission limiter set to `C`, at most `C` coordinate
acquisitions are in flight, and at most `9 * C` tile-fetch operations are
open — the limiter bounds coordinate-level acquisitions, and each in-flight
acquisition opens at most the 9 fetches of its 3×3 neighborhood. -/
theorem C9_amended_fetch_bound (C N : ℕ) (s : SemState)
    (h : SemReachable C (semInit N) s) :
    s.holders.length ≤ C ∧ openFetches s ≤ 9 * C := by
  obtain ⟨hlen, hmem⟩ := semReachable_inv h
  refine ⟨hlen, ?_⟩
  calc openFetches s ≤ 9 * s.holders.length :=
        holders_open_sum_le s.holders (fun x hx => (hmem x hx).1.trans (hmem x hx).2)
    _ ≤ 9 * C := Nat.mul_le_mul_left 9 hlen

/-- Witness for C9 (amended): the initial state of 5 submissions under
limiter 3 satisfies the bound. -/
theorem C9_witness :
    (semInit 5).holders.length ≤ 3 ∧ openFetches (semInit 5) ≤ 9 * 3 :=
  C9_amended_fetch_bound 3 5 (semInit 5) Relation.ReflTransGen.refl

/-- C9 counterexample: with the admission limiter set to `C = 1` and
`N = 2 > C` submitted acquisitions, a state with `2 > C` simultaneously
open tile-fetch operations is reachable — the limiter does not bound
concurrent tile fetches by `C`, because one in-flight acquisition opens its
nine neighborhood fetches concurrently. -/
theorem C9_counterexample_fetches_exceed_limit :
    SemReachable 1 (semInit 2) ⟨1, [⟨2, 2⟩]⟩ ∧
      1 < openFetches ⟨1, [⟨2, 2⟩]⟩ := by
  constructor
  · have s0 : SemStep 1 ⟨2, []⟩ ⟨1, [⟨0, 0⟩]⟩ :=
      SemStep.acquire 1 [] (by simp)
    have s1 : SemStep 1 ⟨1, [⟨0, 0⟩]⟩ ⟨1, [⟨1, 1⟩]⟩ :=
      SemStep.startFetch 1 [] [] 0 0 (by norm_num)
    have s2 : SemStep 1 ⟨1, [⟨1, 1⟩]⟩ ⟨1, [⟨2, 2⟩]⟩ :=
      SemStep.startFetch 1 [] [] 1 1 (by norm_num)
    exact Relation.ReflTransGen.head s0
      (Relation.ReflTransGen.head s1 (Relation.ReflTransGen.single s2))
  · simp [openFetches]

/-! ## Real-analysis bounds for the coordinate mapper -/

theorem exp_three_lb : (20.0855369 : ℝ) < Real.exp 3 := by
  have h3 : Real.exp 3 = Real.exp 1 ^ 3 := by
    rw [← Real.exp_nat_mul]; norm_num
  have h := Real.exp_one_gt_d9
  have h2 : (2.7182818283 : ℝ) ^ 3 ≤ Real.exp 1 ^ 3 :=
    pow_le_pow_left (by norm_num) h.le 3
  have h4 : (20.0855369 : ℝ) < (2.7182818283 : ℝ) ^ 3 := by norm_num
  rw [h3]; linarith

theorem exp_three_ub : Real.exp 3 < (20.0855370 : ℝ) := by
  have h3 : Real.exp 3 = Real.exp 1 ^ 3 := by
    rw [← Real.exp_nat_mul]; norm_num
  have h := Real.exp_one_lt_d9
  have h2 : Real.exp 1 ^ 3 ≤ (2.7182818286 : ℝ) ^ 3 :=
    pow_le_pow_left (Real.exp_pos 1).le h.le 3
  have h4 : (2.7182818286 : ℝ) ^ 3 < 20.0855370 := by norm_num
  rw [h3]; linarith

theorem exp_five_lb : (148.41 : ℝ) < Real.exp 5 := by
  have h5 : Real.exp 5 = Real.exp 1 ^ 5 := by
    rw [← Real.exp_nat_mul]; norm_num
  have h := Real.exp_one_gt_d9
  have h2 : (2.7182818283 : ℝ) ^ 5 ≤ Real.exp 1 ^ 5 :=
    pow_le_pow_left (by norm_num) h.le 5
  have h4 : (148.41 : ℝ) < (2.7182818283 : ℝ) ^ 5 := by norm_num
  rw [h5]; linarith

theorem exp_pi_lb : (23.0301 : ℝ) < Real.exp Real.pi := by
  have h1 : Real.exp 3.141592 ≤ Real.exp Real.pi :=
    Real.exp_le_exp.mpr Real.pi_gt_d6.le
  have h2 : Real.exp 3.141592 = Real.exp 3 * Real.exp 0.141592 := by
    rw [← Real.exp_add]; norm_num
  have h3 : Real.exp 0.141592 = Real.exp 0.070796 ^ 2 := by
    rw [sq, ← Real.exp_add]; norm_num
  have h4 : (1.070796 : ℝ) ≤ Real.exp 0.070796 := by
    have := Real.add_one_le_exp (0.070796 : ℝ); linarith
  have h5 : (1.070796 : ℝ) ^ 2 ≤ Real.exp 0.070796 ^ 2 :=
    pow_le_pow_left (by norm_num) h4 2
  have h6 := exp_three_lb
  nlinarith [Real.exp_pos (0.070796 : ℝ), Real.exp_pos (0.141592 : ℝ)]

theorem exp_neg_pi_ub : Real.exp (-Real.pi) < (0.0497871 : ℝ) := by
  have h1 : Real.exp (-Real.pi) ≤ Real.exp (-3) := by
    apply Real.exp_le_exp.mpr
    have := Real.pi_gt_d6; linarith
  have h2 : Real.exp (-3) = (Real.exp 3)⁻¹ := Real.exp_neg 3
  have h3 := exp_three_lb
  have h4 : (Real.exp 3)⁻¹ < (20.0855369 : ℝ)⁻¹ :=
    inv_lt_inv_of_lt (by norm_num) h3
  calc Real.exp (-Real.pi) ≤ (Real.exp 3)⁻¹ := h2 ▸ h1
    _ < (20.0855369 : ℝ)⁻¹ := h4
    _ < 0.0497871 := by norm_num

theorem sinh_pi_lb : (11.49 : ℝ) < Real.sinh Real.pi := by
  rw [Real.sinh_eq]
  have h1 := exp_pi_lb
  have h2 := exp_neg_pi_ub
  linarith

theorem sinh_three_pi_lb : (73 : ℝ) < Real.sinh (3 * Real.pi) := by
  have h1 : Real.sinh 5 ≤ Real.sinh (3 * Real.pi) := by
    apply Real.sinh_le_sinh.mpr
    have := Real.pi_gt_d6; linarith
  have h2 : (73 : ℝ) < Real.sinh 5 := by
    rw [Real.sinh_eq]
    have h3 := exp_five_lb
    have h4 : Real.exp (-5 : ℝ) < 1 := by
      rw [Real.exp_lt_one_iff]; norm_num
    linarith
  linarith

theorem exp_ub_inv {x : ℝ} (h1 : x < 1) : Real.exp x ≤ 1 / (1 - x) := by
  have h2 := Real.add_one_le_exp (-x)
  have h3 : (0 : ℝ) < 1 - x := by linarith
  have h4 : Real.exp x = 1 / Real.exp (-x) := by
    rw [Real.exp_neg]; field_simp
  rw [h4]
  apply one_div_le_one_div_of_le h3
  linarith

theorem sinh_129_128_pi_ub : Real.sinh (129 * Real.pi / 128) < (12.05 : ℝ) := by
  have hpi := Real.pi_lt_d6
  have h1 : (129 * Real.pi / 128 : ℝ) ≤ 3.1661367 := by nlinarith
  have h2 : Real.exp (129 * Real.pi / 128) ≤ Real.exp 3.1661367 :=
    Real.exp_le_exp.mpr h1
  have h3 : Real.exp (3.1661367 : ℝ) = Real.exp 3 * Real.exp 0.1661367 := by
    rw [← Real.exp_add]; norm_num
  have h4 : Real.exp (0.1661367 : ℝ) ≤ 1 / (1 - 0.1661367) :=
    exp_ub_inv (by norm_num)
  have h5 := exp_three_ub
  have h6 : Real.exp (3.1661367 : ℝ) < 20.0855370 * (1 / (1 - 0.1661367)) := by
    rw [h3]
    have := Real.exp_pos (0.1661367 : ℝ)
    nlinarith
  have h7 : (20.0855370 : ℝ) * (1 / (1 - 0.1661367)) < 24.1 := by norm_num
  rw [Real.sinh_eq]
  have h8 := Real.exp_pos (-(129 * Real.pi / 128))
  linarith

theorem pi_div_180_pos : (0 : ℝ) < Real.pi / 180 := by positivity

theorem pi_div_180_lt : Real.pi / 180 < 0.0174533 := by
  have := Real.pi_lt_d6; linarith

theorem pi_div_180_gt : (0.01745328 : ℝ) < Real.pi / 180 := by
  have := Real.pi_gt_d6; linarith

theorem cos_one_deg_lb : (0.9998476 : ℝ) < Real.cos (Real.pi / 180) := by
  have h1 := @Real.one_sub_sq_div_two_le_cos (Real.pi / 180)
  have h2 : (Real.pi / 180) ^ 2 < 0.0174533 ^ 2 := by
    apply sq_lt_sq' _ pi_div_180_lt
    have := pi_div_180_pos; linarith
  nlinarith

theorem tan_one_deg_ub : Real.tan (Real.pi / 180) < 0.017456 := by
  rw [Real.tan_eq_sin_div_cos]
  have hs : Real.sin (Real.pi / 180) < 0.0174533 :=
    lt_trans (Real.sin_lt pi_div_180_pos) pi_div_180_lt
  have hs0 : (0 : ℝ) < Real.sin (Real.pi / 180) := by
    apply Real.sin_pos_of_pos_of_lt_pi pi_div_180_pos
    have := Real.pi_gt_d6
    have := Real.pi_lt_d6
    nlinarith
  have hc := cos_one_deg_lb
  have hc0 : (0 : ℝ) < Real.cos (Real.pi / 180) := by linarith
  rw [div_lt_iff hc0]
  nlinarith

theorem tan_one_deg_lb : (0.0174519 : ℝ) < Real.tan (Real.pi / 180) := by
  rw [Real.tan_eq_sin_div_cos]
  have hs : Real.pi / 180 - (Real.pi / 180) ^ 3 / 4 < Real.sin (Real.pi / 180) := by
    apply Real.sin_gt_sub_cube pi_div_180_pos
    have := pi_div_180_lt; linarith
  have hcube : (Real.pi / 180) ^ 3 < 0.0174533 ^ 3 := by
    apply pow_lt_pow_left pi_div_180_lt (le_of_lt pi_div_180_pos)
    norm_num
  have hsl : (0.0174519 : ℝ) < Real.sin (Real.pi / 180) := by
    have := pi_div_180_gt
    nlinarith
  have hc1 : Real.cos (Real.pi / 180) ≤ 1 := Real.cos_le_one _
  have hc0 : (0 : ℝ) < Real.cos (Real.pi / 180) := by
    have := cos_one_deg_lb; linarith
  rw [lt_div_iff hc0]
  nlinarith

theorem arsinh_lt_of_lt_sinh {t b : ℝ} (h : t < Real.sinh b) :
    Real.arsinh t < b := by
  have h2 := Real.arsinh_lt_arsinh.mpr h
  rwa [Real.arsinh_sinh] at h2

theorem lt_arsinh_of_sinh_lt {t b : ℝ} (h : Real.sinh b < t) :
    b < Real.arsinh t := by
  have h2 := Real.arsinh_lt_arsinh.mpr h
  rwa [Real.arsinh_sinh] at h2

theorem tan_89_deg_eq :
    Real.tan (89 * Real.pi / 180) = (Real.tan (Real.pi / 180))⁻¹ := by
  have h : (89 : ℝ) * Real.pi / 180 = Real.pi / 2 - Real.pi / 180 := by ring
  rw [h, Real.tan_pi_div_two_sub]

theorem tan_89_deg_lb : (57.28 : ℝ) < Real.tan (89 * Real.pi / 180) := by
  rw [tan_89_deg_eq]
  have h1 := tan_one_deg_ub
  have h2 : (0 : ℝ) < Real.tan (Real.pi / 180) := by
    have := tan_one_deg_lb; linarith
  have h3 : ((0.017456 : ℝ))⁻¹ < (Real.tan (Real.pi / 180))⁻¹ :=
    inv_lt_inv_of_lt h2 h1
  have h4 : (57.28 : ℝ) < ((0.017456 : ℝ))⁻¹ := by norm_num
  linarith

theorem tan_89_deg_ub : Real.tan (89 * Real.pi / 180) < 57.31 := by
  rw [tan_89_deg_eq]
  have h1 := tan_one_deg_lb
  have h3 : (Real.tan (Real.pi / 180))⁻¹ < ((0.0174519 : ℝ))⁻¹ :=
    inv_lt_inv_of_lt (by norm_num) h1
  have h4 : ((0.0174519 : ℝ))⁻¹ < 57.31 := by norm_num
  linarith

theorem arsinh_tan_89_lb :
    129 * Real.pi / 128 < Real.arsinh (Real.tan (89 * Real.pi / 180)) := by
  apply lt_arsinh_of_sinh_lt
  have := sinh_129_128_pi_ub
  have := tan_89_deg_lb
  linarith

theorem arsinh_tan_89_ub :
    Real.arsinh (Real.tan (89 * Real.pi / 180)) < 3 * Real.pi := by
  apply arsinh_lt_of_lt_sinh
  have := sinh_three_pi_lb
  have := tan_89_deg_ub
  linarith

theorem y_89_bounds :
    (-1 : ℝ) < (1 - Real.arsinh (Real.tan (89 * Real.pi / 180)) / Real.pi) / 2 ∧
    (1 - Real.arsinh (Real.tan (89 * Real.pi / 180)) / Real.pi) / 2 < -(1 / 256) := by
  have hpi := Real.pi_pos
  have hA1 := arsinh_tan_89_lb
  have hA2 := arsinh_tan_89_ub
  constructor
  · have h1 : Real.arsinh (Real.tan (89 * Real.pi / 180)) / Real.pi < 3 := by
      rw [div_lt_iff hpi]; linarith
    linarith
  · have h2 : (129 : ℝ) / 128 <
        Real.arsinh (Real.tan (89 * Real.pi / 180)) / Real.pi := by
      rw [lt_div_iff hpi]; nlinarith
    nlinarith

theorem truncR_nonneg {x : ℝ} (h : 0 ≤ x) : truncR x = ⌊x⌋ := if_pos h

theorem truncR_neg {x : ℝ} (h : x < 0) : truncR x = ⌈x⌉ := by
  rw [truncR, if_neg (not_le.mpr h)]

/-- For a nonnegative continuous tile coordinate, the `int`-truncated
fractional pixel offset lies in `[0, 256)`. -/
theorem pixel_in_range {v : ℝ} (hv : 0 ≤ v) :
    0 ≤ truncR ((v - (truncR v : ℤ)) * 256) ∧
      truncR ((v - (truncR v : ℤ)) * 256) < 256 := by
  rw [truncR_nonneg hv]
  have h0 : (0 : ℝ) ≤ v - ⌊v⌋ := by
    have := Int.floor_le v; linarith
  have h1 : v - ⌊v⌋ < 1 := by
    have := Int.lt_floor_add_one v; linarith
  have harg0 : (0 : ℝ) ≤ (v - ⌊v⌋) * 256 := by linarith
  rw [truncR_nonneg harg0]
  constructor
  · exact Int.floor_nonneg.mpr harg0
  · have h2 : (v - ⌊v⌋) * 256 < 256 := by linarith
    exact Int.floor_lt.mpr (by push_cast; linarith)

theorem tan_85_deg_lt : Real.tan (17 * Real.pi / 36) < Real.sinh Real.pi := by
  have hpi := Real.pi_pos
  have h1 : (17 : ℝ) * Real.pi / 36 = Real.pi / 2 - Real.pi / 36 := by ring
  rw [h1, Real.tan_pi_div_two_sub]
  have h2 : Real.pi / 36 < Real.tan (Real.pi / 36) := by
    apply Real.lt_tan (by positivity)
    nlinarith
  have h3 : (Real.tan (Real.pi / 36))⁻¹ < (Real.pi / 36)⁻¹ :=
    inv_lt_inv_of_lt (by positivity) h2
  have h4 : (Real.pi / 36 : ℝ)⁻¹ = 36 / Real.pi := by
    rw [inv_div]
  have h5 : (36 : ℝ) / Real.pi < 11.46 := by
    rw [div_lt_iff hpi]
    nlinarith [Real.pi_gt_d6]
  have h6 := sinh_pi_lb
  rw [h4] at h3
  linarith

/-- C2 counterexample: the implementation does not clamp latitude — at the
in-range input latitude 89, longitude 0, zoom 0 the returned `pixel_y` is
negative, outside `[0, 256)`. -/
theorem C2_counterexample_no_clamping :
    (lat_lng_to_pixel_in_tile 89 0 0).2.2.2 < 0 := by
  simp only [lat_lng_to_pixel_in_tile]
  set Y : ℝ := (1 - Real.arsinh (Real.tan (89 * Real.pi / 180)) / Real.pi) / 2
    with hYdef
  have hy := y_89_bounds
  rw [← hYdef] at hy
  have hy1 : (-1 : ℝ) < Y := hy.1
  have hy2 : Y < -(1 / 256) := hy.2
  have hy0 : Y < 0 := by linarith
  rw [pow_zero, mul_one]
  have hyt : truncR Y = 0 := by
    rw [truncR_neg hy0, Int.ceil_eq_zero_iff]
    exact Set.mem_Ioc.mpr ⟨hy1, hy0.le⟩
  rw [hyt]
  have harg : (Y - ((0 : ℤ) : ℝ)) * 256 = Y * 256 := by push_cast; ring
  rw [harg]
  have harg0 : Y * 256 < 0 := by linarith
  rw [truncR_neg harg0]
  have hle : ⌈Y * 256⌉ ≤ -1 := Int.ceil_le.mpr (by push_cast; linarith)
  omega

/-- C2 (amended): for latitudes within the Mercator-safe range `[-85, 85]`
(the claim's clamping to about ±85.05 does not exist in the code, and
latitudes beyond it produce a negative `pixel_y`), any longitude in
`[-180, 180]` and any zoom, both pixel offsets are integers in `[0, 256)`. -/
theorem C2_amended_pixel_offsets (lat lng : ℝ) (zoom : ℕ)
    (hlat1 : -85 ≤ lat) (hlat2 : lat ≤ 85)
    (hlng1 : -180 ≤ lng) (hlng2 : lng ≤ 180) :
    0 ≤ (lat_lng_to_pixel_in_tile lat lng zoom).2.2.1 ∧
    (lat_lng_to_pixel_in_tile lat lng zoom).2.2.1 < 256 ∧
    0 ≤ (lat_lng_to_pixel_in_tile lat lng zoom).2.2.2 ∧
    (lat_lng_to_pixel_in_tile lat lng zoom).2.2.2 < 256 := by
  have hpi := Real.pi_pos
  have hn : (0 : ℝ) < 2 ^ zoom := by positivity
  have hx : (0 : ℝ) ≤ (lng + 180) / 360 * 2 ^ zoom := by
    apply mul_nonneg _ hn.le
    linarith
  set a := lat * Real.pi / 180 with hadef
  have ha_ub : a ≤ 17 * Real.pi / 36 := by
    rw [hadef]
    nlinarith
  have ha_lb : -(Real.pi / 2) < a := by
    rw [hadef]
    nlinarith
  have h36 : (17 : ℝ) * Real.pi / 36 < Real.pi / 2 := by nlinarith
  have htan_le : Real.tan a ≤ Real.tan (17 * Real.pi / 36) := by
    rcases lt_or_eq_of_le ha_ub with hlt | heq
    · exact (Real.tan_lt_tan_of_lt_of_lt_pi_div_two ha_lb h36 hlt).le
    · rw [heq]
  have htan : Real.tan a < Real.sinh Real.pi := lt_of_le_of_lt htan_le tan_85_deg_lt
  have harsinh : Real.arsinh (Real.tan a) < Real.pi := arsinh_lt_of_lt_sinh htan
  have hy : (0 : ℝ) ≤ (1 - Real.arsinh (Real.tan a) / Real.pi) / 2 * 2 ^ zoom := by
    apply mul_nonneg _ hn.le
    have : Real.arsinh (Real.tan a) / Real.pi < 1 := (div_lt_one hpi).mpr harsinh
    linarith
  simp only [lat_lng_to_pixel_in_tile]
  rw [← hadef]
  exact ⟨(pixel_in_range hx).1, (pixel_in_range hx).2,
    (pixel_in_range hy).1, (pixel_in_range hy).2⟩

/-- Witness for C2 (amended): the pixel offsets at the origin coordinate
are in range. -/
theorem C2_witness :
    0 ≤ (lat_lng_to_pixel_in_tile 0 0 0).2.2.1 ∧
    (lat_lng_to_pixel_in_tile 0 0 0).2.2.1 < 256 ∧
    0 ≤ (lat_lng_to_pixel_in_tile 0 0 0).2.2.2 ∧
    (lat_lng_to_pixel_in_tile 0 0 0).2.2.2 < 256 :=
  C2_amended_pixel_offsets 0 0 0 (by norm_num) (by norm_num)
    (by norm_num) (by norm_num)

end AsbestosApi
